import Mathlib

/-!
Verification of the wrwr RTP/RTCP library.

This file shallowly embeds the wire codecs and the packetization layer of the
repository and proves (or refutes) the frozen claims about them.

Modelling conventions:
* Machine integers (`u8`, `u16`, `u32`, `u64`, `usize`) become `Nat`, with an
  explicit `% 2^w` wherever the Rust code can overflow or truncate (`as u8`
  casts, wrapping arithmetic in release builds).
* Byte buffers (`&[u8]`, `Vec<u8>`) become `List Nat`.
* A Rust function returning `Result<T, ()>` becomes `RustM T`, an `Except`
  whose error payload distinguishes an ordinary `Err(())` from a panic (an
  out-of-bounds index or slice, or a mismatched `copy_from_slice`): the error
  value `some ()` is `Err(())`, the error value `none` is a panic.
* In-place mutation becomes explicit state passing: `&mut self` methods return
  the updated value next to their result.
-/

/-- Outcome of a Rust function returning `Result<α, ()>`: `.ok` is `Ok`,
`.error (some ())` is `Err(())`, and `.error none` models a panic. -/
abbrev RustM (α : Type) := Except (Option Unit) α

/-- The `Err(())` outcome. -/
def rustErr {α : Type} : RustM α := .error (some ())

/-- A panic: an out-of-bounds index/slice or a `copy_from_slice` length
mismatch aborts the computation without producing a `Result`. -/
def panicked {α : Type} : RustM α := .error none

/-- `buf[i] = v`: panics when `i` is out of bounds, like Rust index assignment. -/
def store (buf : List Nat) (i v : Nat) : RustM (List Nat) :=
  if i < buf.length then .ok (buf.set i v) else panicked

/-- `buf[i] |= v`: read-modify-write through a panicking index. -/
def orStore (buf : List Nat) (i v : Nat) : RustM (List Nat) :=
  if i < buf.length then .ok (buf.set i (buf.getD i 0 ||| v)) else panicked

/-- `buf[start..stop].copy_from_slice(src)`: panics when the range is out of
bounds or its width differs from `src.length`, like the Rust method. -/
def copySlice (buf : List Nat) (start stop : Nat) (src : List Nat) : RustM (List Nat) :=
  if start ≤ stop ∧ stop ≤ buf.length ∧ src.length = stop - start then
    .ok (buf.take start ++ src ++ buf.drop stop)
  else panicked

/-- Writes the bytes of `src` one by one starting at index `off`, panicking at
the first out-of-bounds index (models per-index `for_each` writes). -/
def storeBytes : List Nat → Nat → List Nat → RustM (List Nat)
  | buf, _, [] => .ok buf
  | buf, off, b :: rest => do
    let buf ← store buf off b
    storeBytes buf (off + 1) rest

/-- Big-endian value of the `n` bytes of `l` starting at offset `off`
(reads past the end return 0; callers guard bounds as the source does). -/
def readBe (l : List Nat) (off : Nat) : Nat → Nat
  | 0 => 0
  | n + 1 => readBe l off n * 256 + l.getD (off + n) 0

/-- `u16::to_be_bytes`. -/
def u16Be (n : Nat) : List Nat := [(n >>> 8) % 256, n % 256]

/-- `u32::to_be_bytes`. -/
def u32Be (n : Nat) : List Nat :=
  [(n >>> 24) % 256, (n >>> 16) % 256, (n >>> 8) % 256, n % 256]

/-- `u64::to_be_bytes`. -/
def u64Be (n : Nat) : List Nat :=
  [(n >>> 56) % 256, (n >>> 48) % 256, (n >>> 40) % 256, (n >>> 32) % 256,
   (n >>> 24) % 256, (n >>> 16) % 256, (n >>> 8) % 256, n % 256]

namespace Rtp

/-! Constants of `src/packet.rs`. -/

/-- RTP packet version used by the library. -/
def PACKET_VERSION : Nat := 2

/-- RTP packet header size. -/
def HEADER_SIZE : Nat := 12

/-- Total length of the RTP packet's header in bytes (sic: the source checks
the buffer only against these four bytes before reading twelve). -/
def HEADER_LENGHT : Nat := 4

def VERSION_SHIFT : Nat := 6
def VERSION_MASK : Nat := 0x03
def PADDING_SHIFT : Nat := 5
def PADDING_MASK : Nat := 0x1
def EXTENSION_SHIFT : Nat := 4
def EXTENSION_MASK : Nat := 0x01
def CC_MASK : Nat := 0x0f
def MARKER_SHIFT : Nat := 7
def MARKER_MASK : Nat := 0x01
def PAYLOAD_TYPE_MASK : Nat := 0x7f
def SEQ_NUM_OFFSET : Nat := 2
def TIMESTAMP_OFFSET : Nat := 4
def SSRC_OFFSET : Nat := 8
def CSRC_OFFSET : Nat := 12
def CSRC_LENGTH : Nat := 4

/-- The `Packet` structure of `src/packet.rs`. -/
structure Packet where
  version : Nat
  padding : Bool
  extension : Bool
  marker : Bool
  payload_type : Nat
  sequence_number : Nat
  timestamp : Nat
  ssrc : Nat
  csrc : List Nat
  extension_profile : Option Nat
  extension_payload : Option (List Nat)
  payload_offset : Nat
  payload : List Nat
  raw : Option (List Nat)
  deriving Repr, DecidableEq

/-- `Packet::from_raw` of `src/packet.rs`. The source checks the buffer length
only against `HEADER_LENGHT` (4 bytes) before indexing bytes 4..11, so buffers
of length 4..11 panic; that panic is the explicit `panicked` guard below. -/
def Packet.from_raw (raw_packet : List Nat) : RustM Packet :=
  if raw_packet.length < HEADER_LENGHT then rustErr else
  let version := (raw_packet.getD 0 0 >>> VERSION_SHIFT) &&& VERSION_MASK
  let padding := ((raw_packet.getD 0 0 >>> PADDING_SHIFT) &&& PADDING_MASK) != 0
  let extension := ((raw_packet.getD 0 0 >>> EXTENSION_SHIFT) &&& EXTENSION_MASK) != 0
  let cc := raw_packet.getD 0 0 &&& CC_MASK
  let marker := ((raw_packet.getD 1 0 >>> MARKER_SHIFT) &&& MARKER_MASK) != 0
  let payload_type := raw_packet.getD 1 0 &&& PAYLOAD_TYPE_MASK
  let sequence_number := readBe raw_packet SEQ_NUM_OFFSET 2
  if raw_packet.length < SSRC_OFFSET + 4 then panicked else
  let timestamp := readBe raw_packet TIMESTAMP_OFFSET 4
  let ssrc := readBe raw_packet SSRC_OFFSET 4
  let payload_offset := CSRC_OFFSET + CSRC_LENGTH * cc
  if raw_packet.length < payload_offset then rustErr else
  let csrc := (List.range cc).map fun i => readBe raw_packet (CSRC_OFFSET + CSRC_LENGTH * i) 4
  if extension then
    if raw_packet.length < payload_offset + 4 then rustErr else
    let extension_profile := readBe raw_packet payload_offset 2
    let extension_length := 4 * readBe raw_packet (payload_offset + 2) 2
    if raw_packet.length < payload_offset + 4 + extension_length then rustErr else
    .ok { version, padding, extension, marker, payload_type, sequence_number, timestamp, ssrc,
          csrc,
          extension_profile := some extension_profile,
          extension_payload := some ((raw_packet.drop (payload_offset + 4)).take extension_length),
          payload_offset := payload_offset + 4 + extension_length,
          payload := raw_packet.drop (payload_offset + 4 + extension_length),
          raw := some raw_packet }
  else
    .ok { version, padding, extension, marker, payload_type, sequence_number, timestamp, ssrc,
          csrc,
          extension_profile := none,
          extension_payload := none,
          payload_offset,
          payload := raw_packet.drop payload_offset,
          raw := some raw_packet }

/-- The CSRC write loop of `Packet::to_raw`: the source adds 12 a second time
on top of the running `payload_offset` (which already starts at 12) when
computing the write index. -/
def writeCsrcList : List Nat → Nat → List Nat → RustM (List Nat × Nat)
  | buffer, payload_offset, [] => .ok (buffer, payload_offset)
  | buffer, payload_offset, c :: rest => do
    let buffer ← storeBytes buffer (12 + payload_offset) (u32Be c)
    writeCsrcList buffer (payload_offset + 4) rest

/-- `Packet::to_raw` of `src/packet.rs`. When a cached `raw` buffer exists it
is returned as is. Otherwise the source allocates `Vec::with_capacity(..)`,
whose length is zero, and immediately writes `buffer[0]`, an out-of-bounds
index. -/
def Packet.to_raw (p : Packet) : RustM (List Nat) :=
  match p.raw with
  | some raw => .ok raw
  | none => do
    let buffer : List Nat := []
    let buffer ← store buffer 0
      (((p.version <<< VERSION_SHIFT) % 256) ||| (p.csrc.length % 256))
    let buffer ← if p.padding then orStore buffer 0 (1 <<< PADDING_SHIFT) else pure buffer
    let buffer ← if p.extension then orStore buffer 0 (1 <<< EXTENSION_SHIFT) else pure buffer
    let buffer ← store buffer 1 (p.payload_type % 256)
    let buffer ← if p.marker then orStore buffer 1 (1 <<< MARKER_SHIFT) else pure buffer
    let buffer ← storeBytes buffer 2 (u16Be p.sequence_number)
    let buffer ← storeBytes buffer 4 (u32Be p.timestamp)
    let buffer ← storeBytes buffer 8 (u32Be p.ssrc)
    let (buffer, payload_offset) ← writeCsrcList buffer 12 p.csrc
    match p.extension_profile, p.extension_payload with
    | some profile, some payload =>
      if payload.length % 4 > 0 then rustErr else do
      let extension_size := payload.length / 4
      let buffer ← storeBytes buffer payload_offset (u16Be profile)
      let buffer ← storeBytes buffer (payload_offset + 2) (u16Be extension_size)
      let buffer ← storeBytes buffer (payload_offset + 4) payload
      let buffer ← storeBytes buffer (payload_offset + 4 + payload.length) p.payload
      .ok buffer
    | _, _ => do
      let buffer ← storeBytes buffer payload_offset p.payload
      .ok buffer

/-- CC field declared by byte 0 of a raw RTP buffer. -/
def ccOf (B : List Nat) : Nat := B.getD 0 0 &&& CC_MASK

/-- Extension bit of a raw RTP buffer. -/
def hasExt (B : List Nat) : Bool :=
  ((B.getD 0 0 >>> EXTENSION_SHIFT) &&& EXTENSION_MASK) != 0

/-- Extension length in 32-bit words declared by a raw RTP buffer. -/
def extWordsOf (B : List Nat) : Nat :=
  readBe B (CSRC_OFFSET + CSRC_LENGTH * ccOf B + 2) 2

/-- A well-formed raw RTP buffer in the sense of the round-trip claim: version
bits equal to 2, long enough for the 12-byte header and the CC-declared CSRCs,
and, when the extension bit is set, for the 4-byte extension header plus its
declared `4 * length` extension bytes. -/
def WellFormedRtp (B : List Nat) : Prop :=
  (B.getD 0 0 >>> VERSION_SHIFT) &&& VERSION_MASK = 2 ∧
  CSRC_OFFSET + CSRC_LENGTH * ccOf B ≤ B.length ∧
  (hasExt B = true → CSRC_OFFSET + CSRC_LENGTH * ccOf B + 4 + 4 * extWordsOf B ≤ B.length)

instance (B : List Nat) : Decidable (WellFormedRtp B) := by
  unfold WellFormedRtp; infer_instance

end Rtp

namespace Rtcp

/-! Constants and types of `rtcp/src/header.rs`. -/

/-- The version of the RTCP protocol implemented. -/
def RTCP_VERSION : Nat := 2

def HEADER_LENGTH : Nat := 4
def VERSION_MASK : Nat := 0x3
def VERSION_SHIFT : Nat := 6
def PADDING_MASK : Nat := 0x1
def PADDING_SHIFT : Nat := 5
def COUNT_MASK : Nat := 0x1f

/-- The `PacketType` enumeration of `rtcp/src/header.rs`. -/
inductive PacketType where
  | senderReport
  | receiverReport
  | sourceDescription
  | goodbye
  | applicationDefined
  | transportSpecificFeedback
  | payloadSpecificFeedback
  | unknown
  deriving Repr, DecidableEq

/-- The discriminant values of `PacketType` (`*self as u8`). -/
def PacketType.toByte : PacketType → Nat
  | .senderReport => 200
  | .receiverReport => 201
  | .sourceDescription => 202
  | .goodbye => 203
  | .applicationDefined => 204
  | .transportSpecificFeedback => 205
  | .payloadSpecificFeedback => 206
  | .unknown => 0

/-- `impl From<u8> for PacketType`: the eight recognised codes, everything
else maps to `Unknown`. -/
def PacketType.fromByte (byte : Nat) : PacketType :=
  if byte = 200 then .senderReport
  else if byte = 201 then .receiverReport
  else if byte = 202 then .sourceDescription
  else if byte = 203 then .goodbye
  else if byte = 204 then .applicationDefined
  else if byte = 205 then .transportSpecificFeedback
  else if byte = 206 then .payloadSpecificFeedback
  else .unknown

/-- The `Header` structure of `rtcp/src/header.rs`. -/
structure Header where
  padding : Bool
  report_count : Nat
  packet_type : PacketType
  length : Nat
  deriving Repr, DecidableEq

/-- `Header::from_raw` of `rtcp/src/header.rs`. -/
def Header.from_raw (raw_packet : List Nat) : RustM Header :=
  if raw_packet.length < HEADER_LENGTH then rustErr else
  let version := (raw_packet.getD 0 0 >>> VERSION_SHIFT) &&& VERSION_MASK
  if version ≠ RTCP_VERSION then rustErr else
  let padding := ((raw_packet.getD 0 0 >>> PADDING_SHIFT) &&& PADDING_MASK) != 0
  let report_count := raw_packet.getD 0 0 &&& COUNT_MASK
  let packet_type := PacketType.fromByte (raw_packet.getD 1 0)
  let length := raw_packet.getD 2 0 * 256 + raw_packet.getD 3 0
  .ok { padding, report_count, packet_type, length }

/-- `Header::to_raw` of `rtcp/src/header.rs`: four zero bytes are pushed, then
each field is OR-ed into place and the length copied big-endian. -/
def Header.to_raw (h : Header) : RustM (List Nat) := do
  if h.report_count > 31 then rustErr else do
  let output : List Nat := List.replicate 4 0
  let output ← orStore output 0 ((RTCP_VERSION <<< VERSION_SHIFT) % 256)
  let output ← if h.padding then orStore output 0 (1 <<< PADDING_SHIFT) else pure output
  let output ← orStore output 0 (h.report_count % 256)
  let output ← orStore output 1 (h.packet_type.toByte % 256)
  let output ← copySlice output 2 4 (u16Be h.length)
  pure output

/-! Constants of `rtcp/src/util/reception_report.rs`. -/

def RECEPTION_REPORT_LENGTH : Nat := 24
def FRACTION_LOST_OFFSET : Nat := 4
def TOTAL_LOST_OFFSET : Nat := 5
def LAST_SEQUENCE_OFFSET : Nat := 8
def JITTER_OFFSET : Nat := 12
def LAST_SENDER_REPORT_OFFSET : Nat := 16
def DELAY_OFFSET : Nat := 20

/-- The `ReceptionReport` structure of `rtcp/src/util/reception_report.rs`. -/
structure ReceptionReport where
  synchronization_source : Nat
  fraction_lost : Nat
  total_lost : Nat
  last_sequence_number : Nat
  jitter : Nat
  last_sender_report : Nat
  delay : Nat
  deriving Repr, DecidableEq

/-- `ReceptionReport::from_raw`: every multi-byte field is read big-endian;
`total_lost` is `raw[7] | raw[6] << 8 | raw[5] << 16`. -/
def ReceptionReport.from_raw (raw_packet : List Nat) : RustM ReceptionReport :=
  if raw_packet.length < RECEPTION_REPORT_LENGTH then rustErr else
  let synchronization_source := readBe raw_packet 0 4
  let fraction_lost := raw_packet.getD FRACTION_LOST_OFFSET 0
  let total_lost := raw_packet.getD (TOTAL_LOST_OFFSET + 2) 0 |||
    (raw_packet.getD (TOTAL_LOST_OFFSET + 1) 0) <<< 8 |||
    (raw_packet.getD TOTAL_LOST_OFFSET 0) <<< 16
  let last_sequence_number := readBe raw_packet LAST_SEQUENCE_OFFSET 4
  let jitter := readBe raw_packet JITTER_OFFSET 4
  let last_sender_report := readBe raw_packet LAST_SENDER_REPORT_OFFSET 4
  let delay := readBe raw_packet DELAY_OFFSET 4
  .ok { synchronization_source, fraction_lost, total_lost, last_sequence_number,
        jitter, last_sender_report, delay }

/-- `ReceptionReport::to_raw`: the guard compares `total_lost` against
`1 << 25`, and the loop `for i in 0..3 { output[5 + i] = (total_lost >> 8 * i)
as u8 }` writes the three `total_lost` bytes least-significant first. -/
def ReceptionReport.to_raw (r : ReceptionReport) : RustM (List Nat) := do
  if r.total_lost ≥ 1 <<< 25 then rustErr else do
  let output : List Nat := List.replicate RECEPTION_REPORT_LENGTH 0
  let output ← copySlice output 0 FRACTION_LOST_OFFSET (u32Be r.synchronization_source)
  let output ← store output FRACTION_LOST_OFFSET (r.fraction_lost % 256)
  let output ← store output TOTAL_LOST_OFFSET ((r.total_lost >>> (8 * 0)) % 256)
  let output ← store output (TOTAL_LOST_OFFSET + 1) ((r.total_lost >>> (8 * 1)) % 256)
  let output ← store output (TOTAL_LOST_OFFSET + 2) ((r.total_lost >>> (8 * 2)) % 256)
  let output ← copySlice output LAST_SEQUENCE_OFFSET JITTER_OFFSET (u32Be r.last_sequence_number)
  let output ← copySlice output JITTER_OFFSET LAST_SENDER_REPORT_OFFSET (u32Be r.jitter)
  let output ← copySlice output LAST_SENDER_REPORT_OFFSET DELAY_OFFSET (u32Be r.last_sender_report)
  let output ← copySlice output DELAY_OFFSET RECEPTION_REPORT_LENGTH (u32Be r.delay)
  .ok output

/-! Constants of `rtcp/src/packet/mod.rs` and `rtcp/src/packet/sender_report.rs`. -/

def SSRC_LENGTH : Nat := 4
def SSRC_MAX_COUNT : Nat := 0x1f
def SR_HEADER_LENGTH : Nat := 24
def SSRC_OFFSET : Nat := 4
def NTP_OFFSET : Nat := 8
def RTP_OFFSET : Nat := 16
def PACKET_COUNT_OFFSET : Nat := 20
def BYTE_COUNT_OFFSET : Nat := 24
def REPORTS_OFFSET : Nat := 28

/-- The `SenderReport` structure of `rtcp/src/packet/sender_report.rs`. -/
structure SenderReport where
  header : Header
  synchronization_source : Nat
  ntp_time : Nat
  rtp_time : Nat
  packet_count : Nat
  byte_count : Nat
  reports : List ReceptionReport
  profile_extensions : Option (List Nat)
  deriving Repr, DecidableEq

/-- The reception-report loop of `SenderReport::from_raw`: for index `i` the
source checks only `offset > raw_packet.len()` and then slices
`raw_packet[offset..offset + 24]`, which panics when the block is short. -/
def readReportBlocks (raw_packet : List Nat) : Nat → Nat → RustM (List ReceptionReport)
  | _, 0 => .ok []
  | i, n + 1 =>
    let offset := REPORTS_OFFSET + RECEPTION_REPORT_LENGTH * i
    if offset > raw_packet.length then rustErr
    else if raw_packet.length < offset + RECEPTION_REPORT_LENGTH then panicked
    else
      match ReceptionReport.from_raw ((raw_packet.drop offset).take RECEPTION_REPORT_LENGTH) with
      | .ok report => do
        let rest ← readReportBlocks raw_packet (i + 1) n
        .ok (report :: rest)
      | .error _ => rustErr

/-- `SenderReport::from_raw` of `rtcp/src/packet/sender_report.rs`: sender
SSRC at bytes 4..7, NTP time at 8..15, RTP time at 16..19, packet count at
20..23, byte count at 24..27, reception reports from byte 28 on, then any
remaining bytes as profile extensions. -/
def SenderReport.from_raw (raw_packet : List Nat) : RustM SenderReport := do
  if raw_packet.length < HEADER_LENGTH + SR_HEADER_LENGTH then rustErr else do
  let header ← Header.from_raw raw_packet
  if header.packet_type ≠ PacketType.senderReport then rustErr else do
  let synchronization_source := readBe raw_packet SSRC_OFFSET 4
  let ntp_time := readBe raw_packet NTP_OFFSET 8
  let rtp_time := readBe raw_packet RTP_OFFSET 4
  let packet_count := readBe raw_packet PACKET_COUNT_OFFSET 4
  let byte_count := readBe raw_packet BYTE_COUNT_OFFSET 4
  let reports ← if header.report_count > 0 then
      readReportBlocks raw_packet 0 header.report_count
    else pure []
  if reports.length ≠ header.report_count then rustErr else do
  let profile_extensions :=
    if REPORTS_OFFSET + RECEPTION_REPORT_LENGTH * header.report_count < raw_packet.length then
      some (raw_packet.drop (REPORTS_OFFSET + RECEPTION_REPORT_LENGTH * header.report_count))
    else none
  .ok { header, synchronization_source, ntp_time, rtp_time, packet_count, byte_count,
        reports, profile_extensions }

/-- The marshalled length of a sender report
(`Packet::length` for `SenderReport`). -/
def SenderReport.length (sr : SenderReport) : Nat :=
  let length := HEADER_LENGTH + SR_HEADER_LENGTH + sr.reports.length * RECEPTION_REPORT_LENGTH
  match sr.profile_extensions with
  | some profile_extensions => length + profile_extensions.length
  | none => length

/-- The reception-report write loop of `SenderReport::to_raw`. -/
def writeReportBlocks : List Nat → Nat → List ReceptionReport → RustM (List Nat)
  | output, _, [] => .ok output
  | output, i, report :: rest => do
    let offset := REPORTS_OFFSET + RECEPTION_REPORT_LENGTH * i
    let exported ← report.to_raw
    let output ← copySlice output offset (offset + exported.length) exported
    writeReportBlocks output (i + 1) rest

/-- `SenderReport::to_raw` of `rtcp/src/packet/sender_report.rs`. Faithful to
two slips of the source: the fill loop runs `for _ in 0..output.len()` on the
vector of length zero left by `Vec::with_capacity`, so every following write
is out of bounds; and `packet_count` is copied into the
`RTP_OFFSET..PACKET_COUNT_OFFSET` slot while `rtp_time` is never written and
no field is written at `PACKET_COUNT_OFFSET..BYTE_COUNT_OFFSET`. -/
def SenderReport.to_raw (sr : SenderReport) : RustM (List Nat) := do
  let output : List Nat := []
  let marshalled_header ← sr.header.to_raw
  let output ← copySlice output 0 SSRC_OFFSET marshalled_header
  let output ← copySlice output SSRC_OFFSET NTP_OFFSET (u32Be sr.synchronization_source)
  let output ← copySlice output NTP_OFFSET RTP_OFFSET (u64Be sr.ntp_time)
  let output ← copySlice output RTP_OFFSET PACKET_COUNT_OFFSET (u32Be sr.packet_count)
  let output ← copySlice output BYTE_COUNT_OFFSET REPORTS_OFFSET (u32Be sr.byte_count)
  if sr.reports.length > 0x1f then rustErr else do
  let output ← writeReportBlocks output 0 sr.reports
  let output ← match sr.profile_extensions with
    | some profile_extensions =>
      copySlice output (REPORTS_OFFSET + RECEPTION_REPORT_LENGTH * sr.reports.length)
        output.length profile_extensions
    | none => pure output
  .ok output

/-! `rtcp/src/packet/goodbye.rs`. -/

def REASON_MAX_LENGTH : Nat := 255

/-- The `Goodbye` structure of `rtcp/src/packet/goodbye.rs`; the reason string
is modelled by its UTF-8 octets. -/
structure Goodbye where
  header : Header
  sources : List Nat
  reason : Option (List Nat)
  deriving Repr, DecidableEq

/-- The marshalled length of a goodbye packet (`Packet::length` for
`Goodbye`): header, SSRCs, optional length-prefixed reason, zero-padded to
the next 4-octet boundary. -/
def Goodbye.length (g : Goodbye) : Nat :=
  let length := HEADER_LENGTH + SSRC_LENGTH * g.sources.length
  let length := match g.reason with
    | some reason => length + reason.length + 1
    | none => length
  let padding := if length % 4 > 0 then 4 - length % 4 else 0
  length + padding

/-- The SSRC write loop of `Goodbye::to_raw`: the source copies the four
`to_be_bytes` of each SSRC into a three-byte slice
`output[offset..offset + 3]`, a length mismatch that panics. -/
def writeSources : List Nat → Nat → List Nat → RustM (List Nat)
  | output, _, [] => .ok output
  | output, i, ssrc :: rest => do
    let offset := HEADER_LENGTH + SSRC_LENGTH * i
    let output ← copySlice output offset (offset + 3) (u32Be ssrc)
    writeSources output (i + 1) rest

/-- `Goodbye::to_raw` of `rtcp/src/packet/goodbye.rs`. As in
`SenderReport::to_raw` the fill loop is `for _ in 0..output.len()` on the
empty vector left by `Vec::with_capacity(self.length())`, so the header copy
at `output[..4]` is already out of bounds. -/
def Goodbye.to_raw (g : Goodbye) : RustM (List Nat) := do
  if g.sources.length > SSRC_MAX_COUNT then rustErr else do
  let marshalled_header ← g.header.to_raw
  let output : List Nat := []
  let output ← copySlice output 0 HEADER_LENGTH marshalled_header
  let output ← writeSources output 0 g.sources
  match g.reason with
  | some reason =>
    if reason.length > REASON_MAX_LENGTH then rustErr else do
    let offset := HEADER_LENGTH + SSRC_LENGTH * g.sources.length
    let output ← store output offset (reason.length % 256)
    let output ← copySlice output (offset + 1) (offset + reason.length + 1) reason
    .ok output
  | none => .ok output

end Rtcp

namespace Rtp

/-! `rtp/src/sequencer.rs`. -/

/-- The `Sequencer` structure: a 16-bit sequence number and a 64-bit
roll-over counter. -/
structure Sequencer where
  sequence_number : Nat
  roll_over_count : Nat
  deriving Repr, DecidableEq

/-- `Sequencer::next_sequence_number`: increments first (wrapping on 16 bits),
bumps the roll-over count when the new value is zero, and returns the new
value. The updated sequencer is returned alongside. -/
def Sequencer.next_sequence_number (s : Sequencer) : Nat × Sequencer :=
  let sequence_number := (s.sequence_number + 1) % 65536
  let roll_over_count :=
    if sequence_number = 0 then s.roll_over_count + 1 else s.roll_over_count
  (sequence_number, { sequence_number, roll_over_count })

/-! `rtp/src/codecs/g722.rs`. -/

/-- The chunking loop of `G722PayloadGenerator::generate`: while more than
`mtu` bytes remain, emit an `mtu`-sized chunk; then emit the remainder. The
running `offset` of the source becomes the dropped front of the list. The
`0 < mtu` test is only reachable as `True`: `generate` rejects `mtu == 0`
before looping (with `mtu == 0` the source loop would never terminate). -/
def g722Chunks (mtu : Nat) (payload : List Nat) : List (List Nat) :=
  if _h : 0 < mtu ∧ mtu < payload.length then
    payload.take mtu :: g722Chunks mtu (payload.drop mtu)
  else [payload]
termination_by payload.length
decreasing_by simp only [List.length_drop]; omega

/-- The `G722PayloadGenerator` unit structure. -/
structure G722PayloadGenerator where
  deriving Repr, DecidableEq

/-- `G722PayloadGenerator::generate` (trait method `PayloadGenerator::generate`
with its `&mut self` made explicit). -/
def G722PayloadGenerator.generate (g : G722PayloadGenerator) (mtu : Nat) (payload : List Nat) :
    Option (List (List Nat)) × G722PayloadGenerator :=
  if mtu = 0 ∨ payload.length = 0 then (none, g)
  else (some (g722Chunks mtu payload), g)

/-! `src/codecs/vp9.rs`. -/

def VP9_HEADER_SIZE : Nat := 3

/-- The `VP9PayloadGenerator` structure: a picture id and an initialization
flag. -/
structure VP9PayloadGenerator where
  picture_id : Nat
  initialized : Bool
  deriving Repr, DecidableEq

/-- The fragment loop of `VP9PayloadGenerator::generate`: each step takes
`min max_size remaining` payload bytes behind a 3-byte descriptor. Byte 0 is
`0x90`, OR-ed with `0x08` while `data_index == 0` (first fragment) and with
`0x04` when `data_remaining == current_size` (last fragment); byte 1 is
`(picture_id >> 8) as u8 | 0x80` and byte 2 `picture_id as u8`. The source
loop cannot be entered with `max_size == 0` (`generate` rejects `mtu ≤ 3`),
which the dead `[payload]`-free base case mirrors. -/
def vp9Fragments (max_size picture_id : Nat) (data : List Nat) (first : Bool) :
    List (List Nat) :=
  if h : 0 < max_size ∧ data ≠ [] then
    let current_size := min max_size data.length
    let byte0 := (0x90 ||| (if first then 0x08 else 0)) |||
      (if data.length = current_size then 0x04 else 0)
    (byte0 :: (((picture_id >>> 8) % 256) ||| 0x80) :: picture_id % 256 :: data.take current_size)
      :: vp9Fragments max_size picture_id (data.drop current_size) false
  else []
termination_by data.length
decreasing_by
  simp only [List.length_drop]
  have : data.length ≠ 0 := fun hz => h.2 (List.eq_nil_of_length_eq_zero hz)
  omega

/-- `VP9PayloadGenerator::generate` of `src/codecs/vp9.rs`. The random draw
of the lazy `initialize` path is passed in as `rnd` (a `u16`). After the
fragments are emitted the picture id is incremented (wrapping on 16 bits)
and reset to 0 once it reaches `0x8000`. -/
def VP9PayloadGenerator.generate (g : VP9PayloadGenerator) (rnd : Nat) (mtu : Nat)
    (payload : List Nat) : Option (List (List Nat)) × VP9PayloadGenerator :=
  if payload.length = 0 ∨ mtu ≤ VP9_HEADER_SIZE then (none, g)
  else
    let g := if ¬ g.initialized then
        { picture_id := rnd % 65536, initialized := true } else g
    let payloads := vp9Fragments (mtu - VP9_HEADER_SIZE) g.picture_id payload true
    let picture_id := (g.picture_id + 1) % 65536
    let picture_id := if picture_id ≥ 0x8000 then 0 else picture_id
    let g := { g with picture_id }
    if payloads.length > 0 then (some payloads, g) else (none, g)

/-! `rtp/src/packetizer.rs`. -/

/-- The `ExtensionNumber` enumeration. -/
inductive ExtensionNumber where
  | absSendTime : Nat → ExtensionNumber
  | unknown : ExtensionNumber
  deriving Repr, DecidableEq

/-- The `Packetizer<G>` structure, generic over the payload generator state. -/
structure Packetizer (G : Type) where
  mtu : Nat
  payload_type : Nat
  synchronization_source : Nat
  timestamp : Nat
  extensions : List ExtensionNumber
  generator : G
  sequencer : Sequencer

/-- The `if marker { if let Some(abs_send_time) = .. }` block of the map
closure of `Packetizer::packetize`: yields the `extension` flag, the
`extension_profile` and the 4-byte abs-send-time `extension_payload` (note the
source operator precedence: `time & 0xff0000 >> 16` is `time & (0xff0000 >>
16)`). -/
def extensionFields (marker : Bool) (abs_send_time : Option Nat) (time : Nat) :
    Bool × Option Nat × Option (List Nat) :=
  if marker then
    match abs_send_time with
    | some abs_send_time =>
      (true, some 0xbede, some
        [(((abs_send_time <<< 4) % 4294967296) ||| 2) % 256,
         (time &&& (0xff0000 >>> 16)) % 256,
         (time &&& (0xff00 >>> 8)) % 256,
         (time &&& 0xff) % 256])
    | none => (false, none, none)
  else (false, none, none)

/-- The per-payload packet construction of `Packetizer::packetize`
(`payloads.iter().enumerate().map(..)`), with the sequencer state threaded in
iteration order. The source computes `marker` as
`payload.len() - 1 == index` — the length of the current fragment, not the
number of fragments — where the `usize` subtraction wraps at `2^64` on an
empty payload. `time` stands for the ambient `get_ntp_time()` result. -/
def packetsFromPayloads (payload_type synchronization_source timestamp : Nat)
    (abs_send_time : Option Nat) (time : Nat) :
    Nat → Sequencer → List (List Nat) → List Packet × Sequencer
  | _, sequencer, [] => ([], sequencer)
  | index, sequencer, payload :: rest =>
    let marker := (payload.length + 18446744073709551615) % 18446744073709551616 == index
    let ext := extensionFields marker abs_send_time time
    let next := sequencer.next_sequence_number
    let packet : Packet :=
      { version := PACKET_VERSION, padding := false, extension := ext.1, marker, payload_type,
        sequence_number := next.1, timestamp, ssrc := synchronization_source, csrc := [],
        extension_profile := ext.2.1, extension_payload := ext.2.2,
        payload_offset := HEADER_SIZE, payload, raw := none }
    let result :=
      packetsFromPayloads payload_type synchronization_source timestamp abs_send_time time
        (index + 1) next.2 rest
    (packet :: result.1, result.2)

/-- `Packetizer::packetize` of `rtp/src/packetizer.rs`, with the trait call
`self.generator.generate(..)` passed in as the function `generate` and the
ambient `get_ntp_time()` as `ntp_time`. The updated packetizer (generator
state, sequencer, timestamp) is returned alongside; the timestamp advance
`self.timestamp += samples` wraps on 32 bits. -/
def Packetizer.packetize {G : Type}
    (generate : G → Nat → List Nat → Option (List (List Nat)) × G)
    (pz : Packetizer G) (data : List Nat) (samples : Nat) (ntp_time : Nat) :
    Option (List Packet) × Packetizer G :=
  if data.length = 0 ∨ pz.mtu ≤ HEADER_SIZE then (none, pz)
  else
    let genResult := generate pz.generator (pz.mtu - HEADER_SIZE) data
    let pz := { pz with generator := genResult.2 }
    match genResult.1 with
    | none => (none, pz)
    | some payloads =>
      if payloads.length = 0 then (none, pz)
      else
        let abs_send_time := pz.extensions.foldl
          (fun current extension =>
            match extension with
            | ExtensionNumber.absSendTime value => some value
            | ExtensionNumber.unknown => current)
          none
        let result := packetsFromPayloads pz.payload_type pz.synchronization_source
          pz.timestamp abs_send_time ntp_time 0 pz.sequencer payloads
        (some result.1,
         { pz with sequencer := result.2, timestamp := (pz.timestamp + samples) % 4294967296 })

end Rtp

/-! Concrete instances and auxiliary predicates used by the claim theorems. -/

/-- Seed scenario 1 and 2 of the specification: a 17-byte RTP packet. -/
def rtpSeedBuffer : List Nat :=
  [0x80, 0xE0, 0x69, 0x8F, 0xD9, 0xC2, 0x93, 0xDA, 0x1C, 0x64, 0x27, 0x82,
   0x98, 0x36, 0xBE, 0x88, 0x9E]
/-- A 28-byte sender-report buffer: common header (SR, no reports, length 6),
sender SSRC `0x11111111`, NTP time `0x2222222233333333`, then 3, 4, 5 in the
RTP-time, packet-count and byte-count slots. -/
def srParseBuffer : List Nat :=
  [0x80, 0xC8, 0x00, 0x06] ++ u32Be 0x11111111 ++ u64Be 0x2222222233333333 ++
    u32Be 3 ++ u32Be 4 ++ u32Be 5
/-- The sender report parsed from `srParseBuffer`. -/
def srParsed : Rtcp.SenderReport :=
  { header := { padding := false, report_count := 0,
                packet_type := Rtcp.PacketType.senderReport, length := 6 },
    synchronization_source := 0x11111111, ntp_time := 0x2222222233333333,
    rtp_time := 3, packet_count := 4, byte_count := 5,
    reports := [], profile_extensions := none }
/-- Seed scenario 5 of the specification: a G.722 packetizer at mtu 100. -/
def pz100 : Rtp.Packetizer Rtp.G722PayloadGenerator :=
  { mtu := 100, payload_type := 98, synchronization_source := 0x1234ABCD,
    timestamp := 0, extensions := [], generator := {}, sequencer := ⟨0, 0⟩ }
/-- A G.722 packetizer at mtu 13 for the C9 witness: fragments of one byte. -/
def pzW : Rtp.Packetizer Rtp.G722PayloadGenerator :=
  { mtu := 13, payload_type := 96, synchronization_source := 0xABC, timestamp := 5,
    extensions := [], generator := {}, sequencer := ⟨0, 0⟩ }
/-- The packetizer state left behind by the C9 witness call. -/
def pzW2 : Rtp.Packetizer Rtp.G722PayloadGenerator :=
  { mtu := 13, payload_type := 96, synchronization_source := 0xABC, timestamp := 12,
    extensions := [], generator := {}, sequencer := ⟨2, 0⟩ }
/-- The two packets produced by packetizing `[5, 6]` with `pzW`. -/
def c9packets : List Rtp.Packet :=
  [{ version := 2, padding := false, extension := false, marker := true, payload_type := 96,
     sequence_number := 1, timestamp := 5, ssrc := 0xABC, csrc := [], extension_profile := none,
     extension_payload := none, payload_offset := 12, payload := [5], raw := none },
   { version := 2, padding := false, extension := false, marker := false, payload_type := 96,
     sequence_number := 2, timestamp := 5, ssrc := 0xABC, csrc := [], extension_profile := none,
     extension_payload := none, payload_offset := 12, payload := [6], raw := none }]

/-- Descriptor correctness for a VP9 fragment list produced with picture id
`picture_id` and per-fragment payload capacity `max_size`: every fragment has
a 3-byte descriptor plus 1..max_size payload bytes, byte 0 is `0x90` with
`0x08` OR-ed in on the first fragment (when the list starts a frame) and
`0x04` on the last, byte 1 is `(picture_id >> 8) | 0x80` and byte 2 is the
low byte of `picture_id`. -/
def vp9DescriptorOk (max_size picture_id : Nat) (first : Bool)
    (frags : List (List Nat)) : Prop :=
  ∀ i < frags.length,
    4 ≤ (frags.getD i []).length ∧
    (frags.getD i []).length ≤ 3 + max_size ∧
    (frags.getD i []).getD 0 0 =
      (0x90 ||| (if i = 0 ∧ first = true then 0x08 else 0)) |||
        (if i = frags.length - 1 then 0x04 else 0) ∧
    (frags.getD i []).getD 1 0 = ((picture_id >>> 8) % 256) ||| 0x80 ∧
    (frags.getD i []).getD 2 0 = picture_id % 256

/-! Claim theorems. -/

/-- C1. For every well-formed RTP buffer `B` (version bits = 2, buffer long
enough for the 12-byte header, the CC-declared CSRCs, and, when the extension
bit is set, the 4-byte extension header plus its declared extension bytes),
`Packet::from_raw` succeeds and `Packet::to_raw` on the result returns
exactly the bytes of `B`. -/
theorem rtp_roundtrip_wellformed (B : List Nat) (h : Rtp.WellFormedRtp B) :
    ∃ p : Rtp.Packet, Rtp.Packet.from_raw B = Except.ok p ∧ p.to_raw = Except.ok B := by
  obtain ⟨hv, hlen, hext⟩ := h
  simp only [Rtp.ccOf, Rtp.hasExt, Rtp.extWordsOf, Rtp.CSRC_OFFSET, Rtp.CSRC_LENGTH,
    Rtp.EXTENSION_SHIFT, Rtp.EXTENSION_MASK] at hlen hext
  simp only [Rtp.Packet.from_raw, Rtp.HEADER_LENGHT, Rtp.SSRC_OFFSET, Rtp.CSRC_OFFSET,
    Rtp.CSRC_LENGTH, Rtp.EXTENSION_SHIFT, Rtp.EXTENSION_MASK]
  rw [if_neg (by omega), if_neg (by omega), if_neg (by omega)]
  by_cases he : ((B.getD 0 0 >>> 4) &&& 1) != 0
  · rw [if_pos he]
    rw [if_neg (by have := hext he; omega), if_neg (by have := hext he; omega)]
    exact ⟨_, rfl, rfl⟩
  · rw [if_neg he]
    exact ⟨_, rfl, rfl⟩

/-- Witness for C1 at the specification's seed buffer. -/
theorem rtp_roundtrip_wellformed_witness :
    Rtp.WellFormedRtp rtpSeedBuffer ∧
      ∃ p : Rtp.Packet, Rtp.Packet.from_raw rtpSeedBuffer = Except.ok p ∧
        p.to_raw = Except.ok rtpSeedBuffer :=
  ⟨by decide, rtp_roundtrip_wellformed rtpSeedBuffer (by decide)⟩

/-- C2. Refuted: parse and serialize are not total. `Packet::from_raw` on the
4-byte buffer `[0x80, 0, 0, 0]` reads bytes 4..7 out of bounds and panics;
`Packet::to_raw` on a packet with no cached `raw` buffer writes index 0 of an
empty vector and panics; `Goodbye::to_raw` never fills its output vector and
panics copying the header into `output[..4]`. -/
theorem rtp_serialize_parse_panics :
    Rtp.Packet.from_raw [0x80, 0x00, 0x00, 0x00] = panicked ∧
    Rtp.Packet.to_raw
      { version := 2, padding := false, extension := false, marker := false,
        payload_type := 96, sequence_number := 0, timestamp := 0, ssrc := 0, csrc := [],
        extension_profile := none, extension_payload := none, payload_offset := 12,
        payload := [], raw := none } = panicked ∧
    Rtcp.Goodbye.to_raw
      { header := { padding := false, report_count := 1,
                    packet_type := Rtcp.PacketType.goodbye, length := 12 },
        sources := [0x902F9E2E], reason := none } = panicked :=
  ⟨rfl, rfl, rfl⟩

/-- C3. Refuted: `Packet::from_raw` never checks the version field. Twelve-byte
buffers with version bits 0, 1 and 3 all parse successfully, and the parsed
packet carries the non-2 version. -/
theorem rtp_from_raw_accepts_any_version :
    (Rtp.Packet.from_raw (0x00 :: List.replicate 11 0)).map Rtp.Packet.version =
      Except.ok 0 ∧
    (Rtp.Packet.from_raw (0x40 :: List.replicate 11 0)).map Rtp.Packet.version =
      Except.ok 1 ∧
    (Rtp.Packet.from_raw (0xC0 :: List.replicate 11 0)).map Rtp.Packet.version =
      Except.ok 3 :=
  ⟨rfl, rfl, rfl⟩

/-- C4. `SenderReport::from_raw` does read rtp_time, packet_count and
byte_count from bytes 16..19, 20..23 and 24..27, but `SenderReport::to_raw`
does not write that layout: on the very packet just parsed it panics (its
output vector is never filled, so the header copy is out of bounds), and its
write sequence puts `packet_count` in the 16..19 slot while `rtp_time` is
never emitted. -/
theorem sender_report_layout_diverges :
    Rtcp.SenderReport.from_raw srParseBuffer = Except.ok srParsed ∧
    Rtcp.SenderReport.to_raw srParsed = panicked :=
  ⟨rfl, rfl⟩

set_option maxRecDepth 4000 in
/-- C5. Refuted: packetizing 128 bytes with G.722 at mtu 100 yields two
packets (payloads of 88 and 40 bytes) whose markers are `[false, false]` —
no packet carries the marker, because the source compares the current
fragment's length, not the fragment count, against the fragment index. -/
theorem packetize_marker_not_on_last :
    ((Rtp.Packetizer.packetize Rtp.G722PayloadGenerator.generate pz100
        (List.replicate 128 0) 2000 0).1).map
      (fun packets => packets.map Rtp.Packet.marker) = some [false, false] := by
  have hc : Rtp.g722Chunks 88 (List.replicate 128 0) =
      [List.replicate 88 0, List.replicate 40 0] := by
    rw [Rtp.g722Chunks]
    rw [dif_pos (by simp)]
    rw [List.take_replicate, List.drop_replicate]
    rw [Rtp.g722Chunks]
    norm_num
  have hg : Rtp.G722PayloadGenerator.generate pz100.generator 88 (List.replicate 128 0) =
      (some [List.replicate 88 0, List.replicate 40 0], pz100.generator) := by
    simp only [Rtp.G722PayloadGenerator.generate, List.length_replicate, hc]
    norm_num
  simp only [Rtp.Packetizer.packetize, List.length_replicate, Rtp.HEADER_SIZE]
  rw [if_neg (by norm_num [pz100])]
  rw [show pz100.mtu - 12 = 88 from rfl, hg]
  simp only [List.length_cons, List.length_nil]
  rw [if_neg (by norm_num)]
  rw [Rtp.packetsFromPayloads, Rtp.packetsFromPayloads, Rtp.packetsFromPayloads]
  norm_num [Rtp.extensionFields, Rtp.Sequencer.next_sequence_number, pz100]

/-- Sequence numbers produced by the packet-construction loop of
`Packetizer::packetize`: the `j`-th packet draws the `j`-th successor of the
incoming sequencer state, mod 2^16. -/
theorem packetsFromPayloads_seq_map (payload_type ssrc ts : Nat) (ast : Option Nat)
    (time : Nat) :
    ∀ (payloads : List (List Nat)) (index : Nat) (s : Rtp.Sequencer),
      (Rtp.packetsFromPayloads payload_type ssrc ts ast time index s payloads).1.map
          Rtp.Packet.sequence_number =
        (List.range payloads.length).map fun j => (s.sequence_number + 1 + j) % 65536 := by
  intro payloads
  induction payloads with
  | nil =>
    intro index s
    rw [Rtp.packetsFromPayloads]
    simp
  | cons p rest ih =>
    intro index s
    rw [Rtp.packetsFromPayloads]
    simp only [List.map_cons, List.length_cons, List.range_succ_eq_map, List.map_map,
      Rtp.Sequencer.next_sequence_number]
    refine List.cons_eq_cons.mpr ⟨by omega, ?_⟩
    rw [ih]
    refine List.map_congr_left ?_
    intro a _
    simp only [Function.comp_apply]
    omega

/-- C9. Within one successful `Packetizer::packetize` call, sequence numbers
are consecutive modulo 2^16: packet `i + 1` carries the successor (mod 2^16)
of packet `i`'s sequence number, each drawn in order from
`Sequencer::next_sequence_number`. -/
theorem packetize_sequence_numbers_consecutive {G : Type}
    (generate : G → Nat → List Nat → Option (List (List Nat)) × G)
    (pz pz2 : Rtp.Packetizer G) (data : List Nat) (samples ntp_time : Nat)
    (packets : List Rtp.Packet) (i : Nat)
    (hcall : Rtp.Packetizer.packetize generate pz data samples ntp_time = (some packets, pz2))
    (hi : i + 1 < packets.length) :
    (packets.get ⟨i + 1, hi⟩).sequence_number =
      ((packets.get ⟨i, by omega⟩).sequence_number + 1) % 65536 := by
  simp only [Rtp.Packetizer.packetize] at hcall
  split at hcall
  · exact absurd (congrArg Prod.fst hcall) (by simp)
  · split at hcall
    · exact absurd (congrArg Prod.fst hcall) (by simp)
    · rename_i payloads heq
      split at hcall
      · exact absurd (congrArg Prod.fst hcall) (by simp)
      · have hpk : packets = (Rtp.packetsFromPayloads pz.payload_type
            pz.synchronization_source pz.timestamp
            (List.foldl (fun current extension =>
              match extension with
              | Rtp.ExtensionNumber.absSendTime value => some value
              | Rtp.ExtensionNumber.unknown => current) none pz.extensions)
            ntp_time 0 pz.sequencer payloads).1 := by
          have := congrArg Prod.fst hcall
          simp only at this
          exact (Option.some.inj this).symm
        have hmap := packetsFromPayloads_seq_map pz.payload_type pz.synchronization_source
          pz.timestamp (List.foldl (fun current extension =>
            match extension with
            | Rtp.ExtensionNumber.absSendTime value => some value
            | Rtp.ExtensionNumber.unknown => current) none pz.extensions)
          ntp_time payloads 0 pz.sequencer
        rw [← hpk] at hmap
        have key : ∀ (j : Nat) (hj : j < packets.length),
            (packets.get ⟨j, hj⟩).sequence_number =
              (pz.sequencer.sequence_number + 1 + j) % 65536 := by
          intro j hj
          have hplen : packets.length = payloads.length := by
            have := congrArg List.length hmap
            simpa using this
          have h1 := congrArg (fun l => l[j]?) hmap
          simp only [List.getElem?_map] at h1
          rw [List.getElem?_eq_getElem hj, List.getElem?_eq_getElem
            (by rwa [List.length_range, ← hplen])] at h1
          simp only [List.getElem_range] at h1
          simp only [List.get_eq_getElem]
          exact Option.some.inj (by simpa using h1)
        simp only [key]
        omega

/-- Witness for C9: packetizing `[5, 6]` at mtu 13 yields two packets with
sequence numbers 1 and 2. -/
theorem packetize_sequence_numbers_consecutive_witness :
    (c9packets.get ⟨1, by decide⟩).sequence_number =
      ((c9packets.get ⟨0, by decide⟩).sequence_number + 1) % 65536 :=
  packetize_sequence_numbers_consecutive Rtp.G722PayloadGenerator.generate pzW pzW2
    [5, 6] 7 0 c9packets 0
    (by simp [Rtp.Packetizer.packetize, Rtp.G722PayloadGenerator.generate, Rtp.g722Chunks,
      Rtp.packetsFromPayloads, Rtp.extensionFields, Rtp.Sequencer.next_sequence_number,
      pzW, pzW2, c9packets, Rtp.HEADER_SIZE, Rtp.PACKET_VERSION])
    (by decide)

/-- `vp9Fragments` on an empty payload produces no fragments. -/
theorem vp9Fragments_nil (max_size picture_id : Nat) (first : Bool) :
    Rtp.vp9Fragments max_size picture_id [] first = [] := by
  rw [Rtp.vp9Fragments]
  simp

/-- Every fragment list produced by the VP9 fragment loop on a non-empty
payload satisfies `vp9DescriptorOk` (proved by strong induction on the
payload length bound `n`). -/
theorem vp9Fragments_ok (max_size picture_id : Nat) (hmax : 0 < max_size) :
    ∀ (n : Nat) (data : List Nat) (first : Bool), data.length ≤ n → data ≠ [] →
      vp9DescriptorOk max_size picture_id first
        (Rtp.vp9Fragments max_size picture_id data first) := by
  intro n
  induction n with
  | zero =>
    intro data first hlen hne
    exact absurd (List.eq_nil_of_length_eq_zero (Nat.le_zero.mp hlen)) hne
  | succ n ih =>
    intro data first hlen hne
    have hdpos : 0 < data.length := List.length_pos.mpr hne
    have hcur1 : 1 ≤ min max_size data.length := Nat.le_min.mpr ⟨hmax, hdpos⟩
    have hcurle : min max_size data.length ≤ data.length := Nat.min_le_right _ _
    have hunf : Rtp.vp9Fragments max_size picture_id data first =
        (((0x90 ||| (if first then 0x08 else 0)) |||
            (if data.length = min max_size data.length then 0x04 else 0)) ::
          (((picture_id >>> 8) % 256) ||| 0x80) :: picture_id % 256 ::
            data.take (min max_size data.length)) ::
          Rtp.vp9Fragments max_size picture_id
            (data.drop (min max_size data.length)) false := by
      rw [Rtp.vp9Fragments]
      rw [dif_pos ⟨hmax, hne⟩]
    have hlast : Rtp.vp9Fragments max_size picture_id
        (data.drop (min max_size data.length)) false = [] ↔
        data.length = min max_size data.length := by
      constructor
      · intro hr
        by_contra hne2
        have hdrop : data.drop (min max_size data.length) ≠ [] := by
          intro hd
          have := congrArg List.length hd
          simp only [List.length_drop, List.length_nil] at this
          omega
        rw [Rtp.vp9Fragments, dif_pos ⟨hmax, hdrop⟩] at hr
        exact List.cons_ne_nil _ _ hr
      · intro he
        have hd : data.drop (min max_size data.length) = [] := by
          apply List.eq_nil_of_length_eq_zero
          simp only [List.length_drop]
          omega
        rw [hd, vp9Fragments_nil]
    intro i hi
    rw [hunf] at hi ⊢
    match i with
    | 0 =>
      refine ⟨?_, ?_, ?_, ?_, ?_⟩
      · simp only [List.getD_cons_zero, List.length_cons, List.length_take]
        omega
      · simp only [List.getD_cons_zero, List.length_cons, List.length_take]
        have : min max_size data.length ≤ max_size := Nat.min_le_left _ _
        omega
      · simp only [List.getD_cons_zero, List.length_cons, Nat.add_sub_cancel]
        congr 1
        · cases first <;> simp
        · refine if_congr ?_ rfl rfl
          constructor
          · intro hcd
            rw [hlast.mpr hcd]
            simp
          · intro hr
            exact hlast.mp (List.eq_nil_of_length_eq_zero hr.symm)
      · simp
      · simp
    | j + 1 =>
      simp only [List.length_cons] at hi
      have hj : j < (Rtp.vp9Fragments max_size picture_id
          (data.drop (min max_size data.length)) false).length := by omega
      have hdrop : data.drop (min max_size data.length) ≠ [] := by
        intro hd
        rw [hd, vp9Fragments_nil] at hj
        simp at hj
      have hdlen : (data.drop (min max_size data.length)).length ≤ n := by
        simp only [List.length_drop]
        omega
      have := ih (data.drop (min max_size data.length)) false hdlen hdrop j hj
      simp only [List.getD_cons_succ, List.length_cons, Nat.add_sub_cancel]
      refine ⟨this.1, this.2.1, ?_, this.2.2.2.1, this.2.2.2.2⟩
      rw [this.2.2.1]
      congr 1
      · simp
      · refine if_congr ?_ rfl rfl
        omega

/-- OR-ing the M bit `0x80` into a 7-bit value is an addition. -/
theorem lor128_eq_add (x : Nat) (hx : x < 128) : x ||| 128 = x + 128 := by
  interval_cases x <;> rfl

/-- C8. For every non-empty frame, every mtu > 3 and every initialized
generator with a 15-bit picture id, `VP9PayloadGenerator::generate` returns
fragments of at most `mtu - 3` payload octets behind a 3-octet descriptor
whose byte 0 is `0x90` with `0x08` OR-ed in on the first fragment and `0x04`
on the last, and whose bytes 1..2 carry the picture id with bit 7 of byte 1
set; afterwards the picture id is incremented and reset to 0 on reaching
`0x8000`. In particular frame `[1, 2, 3]` at mtu 4 with picture id 0 yields
`[0x98, 0x80, 0, 1]`, `[0x90, 0x80, 0, 2]`, `[0x94, 0x80, 0, 3]` and leaves
picture id 1. -/
theorem vp9_generate_descriptors (g : Rtp.VP9PayloadGenerator) (rnd mtu : Nat)
    (frame : List Nat) (hne : frame ≠ []) (hmtu : 3 < mtu)
    (hinit : g.initialized = true) (hpid : g.picture_id < 0x8000) :
    (∃ frags g2, Rtp.VP9PayloadGenerator.generate g rnd mtu frame = (some frags, g2) ∧
      frags ≠ [] ∧
      vp9DescriptorOk (mtu - 3) g.picture_id true frags ∧
      (∀ i < frags.length,
        (frags.getD i []).getD 1 0 * 256 + (frags.getD i []).getD 2 0 =
          0x8000 + g.picture_id) ∧
      g2.picture_id = (if g.picture_id + 1 ≥ 0x8000 then 0 else g.picture_id + 1) ∧
      g2.initialized = true) ∧
    Rtp.VP9PayloadGenerator.generate ⟨0, true⟩ 0 4 [0x01, 0x02, 0x03] =
      (some [[0x98, 0x80, 0x00, 0x01], [0x90, 0x80, 0x00, 0x02], [0x94, 0x80, 0x00, 0x03]],
        ⟨1, true⟩) := by
  constructor
  · have hmax : 0 < mtu - 3 := by omega
    have hlen0 : ¬ frame.length = 0 := fun h => hne (List.eq_nil_of_length_eq_zero h)
    have hfne : Rtp.vp9Fragments (mtu - 3) g.picture_id frame true ≠ [] := by
      rw [Rtp.vp9Fragments, dif_pos ⟨hmax, hne⟩]
      exact List.cons_ne_nil _ _
    have hgen : Rtp.VP9PayloadGenerator.generate g rnd mtu frame =
        (some (Rtp.vp9Fragments (mtu - 3) g.picture_id frame true),
         { picture_id :=
             if (g.picture_id + 1) % 65536 ≥ 0x8000 then 0 else (g.picture_id + 1) % 65536,
           initialized := true }) := by
      simp only [Rtp.VP9PayloadGenerator.generate, Rtp.VP9_HEADER_SIZE, hinit]
      rw [if_neg (not_or.mpr ⟨hlen0, by omega⟩)]
      simp only [not_true, if_false, ite_false]
      rw [if_pos (List.length_pos.mpr hfne)]
      rw [hinit]
    refine ⟨Rtp.vp9Fragments (mtu - 3) g.picture_id frame true, _, hgen, hfne,
      vp9Fragments_ok (mtu - 3) g.picture_id hmax frame.length frame true le_rfl hne,
      ?_, ?_, rfl⟩
    · intro i hi
      have hprops := vp9Fragments_ok (mtu - 3) g.picture_id hmax frame.length frame true
        le_rfl hne i hi
      rw [hprops.2.2.2.1, hprops.2.2.2.2]
      have hdiv : g.picture_id >>> 8 < 128 := by
        rw [Nat.shiftRight_eq_div_pow]
        omega
      rw [Nat.mod_eq_of_lt (show g.picture_id >>> 8 < 256 by omega), lor128_eq_add _ hdiv]
      rw [Nat.shiftRight_eq_div_pow]
      omega
    · simp only
      rw [Nat.mod_eq_of_lt (by omega : g.picture_id + 1 < 65536)]
  · simp [Rtp.VP9PayloadGenerator.generate, Rtp.VP9_HEADER_SIZE, Rtp.vp9Fragments]

/-- Witness for C8 at the specification's seed scenario 6. -/
theorem vp9_generate_descriptors_witness :
    (∃ frags g2,
      Rtp.VP9PayloadGenerator.generate ⟨0, true⟩ 0 4 [0x01, 0x02, 0x03] = (some frags, g2) ∧
      frags ≠ [] ∧
      vp9DescriptorOk 1 0 true frags ∧
      (∀ i < frags.length,
        (frags.getD i []).getD 1 0 * 256 + (frags.getD i []).getD 2 0 = 0x8000 + 0) ∧
      g2.picture_id = (if 0 + 1 ≥ 0x8000 then 0 else 0 + 1) ∧
      g2.initialized = true) ∧
    Rtp.VP9PayloadGenerator.generate ⟨0, true⟩ 0 4 [0x01, 0x02, 0x03] =
      (some [[0x98, 0x80, 0x00, 0x01], [0x90, 0x80, 0x00, 0x02], [0x94, 0x80, 0x00, 0x03]],
        ⟨1, true⟩) :=
  vp9_generate_descriptors ⟨0, true⟩ 0 4 [0x01, 0x02, 0x03] (by decide) (by decide) rfl
    (by decide)

/-- C10. For every 4-byte buffer with version bits 2 whose packet-type byte is
none of 200..=206, `Header::from_raw` succeeds with `packet_type = Unknown`,
and `Header::to_raw` on that result writes 0 as the packet-type byte: an
unrecognized packet-type byte is not preserved by parse followed by emit. -/
theorem rtcp_header_unknown_type (b0 b1 b2 b3 : Nat)
    (hv : (b0 >>> Rtcp.VERSION_SHIFT) &&& Rtcp.VERSION_MASK = Rtcp.RTCP_VERSION)
    (hb1 : b1 < 256) (hpt : b1 < 200 ∨ 206 < b1) :
    ∃ h : Rtcp.Header, Rtcp.Header.from_raw [b0, b1, b2, b3] = Except.ok h ∧
      h.packet_type = Rtcp.PacketType.unknown ∧
      ∃ out, Rtcp.Header.to_raw h = Except.ok out ∧ out.getD 1 0 = 0 := by
  have hfrom : Rtcp.Header.from_raw [b0, b1, b2, b3] = Except.ok
      { padding := ((b0 >>> Rtcp.PADDING_SHIFT) &&& Rtcp.PADDING_MASK) != 0,
        report_count := b0 &&& Rtcp.COUNT_MASK,
        packet_type := Rtcp.PacketType.fromByte b1,
        length := b2 * 256 + b3 } := by
    simp only [Rtcp.Header.from_raw, Rtcp.HEADER_LENGTH, List.length_cons, List.length_nil]
    rw [if_neg (by omega), if_neg (by simp [hv])]
    rfl
  have hunknown : Rtcp.PacketType.fromByte b1 = Rtcp.PacketType.unknown := by
    simp only [Rtcp.PacketType.fromByte]
    rw [if_neg (by omega), if_neg (by omega), if_neg (by omega), if_neg (by omega),
      if_neg (by omega), if_neg (by omega), if_neg (by omega)]
  refine ⟨_, hfrom, hunknown, ?_⟩
  have hrc : ¬ (b0 &&& Rtcp.COUNT_MASK) > 31 := by
    simp only [Rtcp.COUNT_MASK]
    have := Nat.and_le_right (n := b0) (m := 31)
    omega
  simp only [Rtcp.Header.to_raw, hrc, hunknown, if_false, Rtcp.PacketType.toByte]
  by_cases hp : (((b0 >>> Rtcp.PADDING_SHIFT) &&& Rtcp.PADDING_MASK) != 0) = true
  · simp only [hp, if_true]
    refine ⟨_, rfl, ?_⟩
    simp [u16Be, List.getD]
  · simp only [hp, if_false]
    refine ⟨_, rfl, ?_⟩
    simp [u16Be, List.getD]

/-- Witness for C10 at the buffer `[0x80, 0x07, 0x00, 0x01]` (packet-type
byte 7). -/
theorem rtcp_header_unknown_type_witness :
    ∃ h : Rtcp.Header, Rtcp.Header.from_raw [0x80, 0x07, 0x00, 0x01] = Except.ok h ∧
      h.packet_type = Rtcp.PacketType.unknown ∧
      ∃ out, Rtcp.Header.to_raw h = Except.ok out ∧ out.getD 1 0 = 0 :=
  rtcp_header_unknown_type 0x80 0x07 0x00 0x01 (by decide) (by decide) (by decide)

/-- C6. Refuted: `ReceptionReport::to_raw` writes `total_lost` least
significant byte first (bytes 5..7 become `[1, 0, 0]` for the value 1), while
`ReceptionReport::from_raw` reads those bytes big-endian, so emit-then-parse
turns `total_lost = 1` into 65536. -/
theorem reception_report_total_lost_little_endian :
    Rtcp.ReceptionReport.to_raw ⟨0, 0, 1, 0, 0, 0, 0⟩ = Except.ok
      [0, 0, 0, 0, 0, 1, 0, 0, 0, 0, 0, 0, 0, 0, 0, 0, 0, 0, 0, 0, 0, 0, 0, 0] ∧
    (Rtcp.ReceptionReport.to_raw ⟨0, 0, 1, 0, 0, 0, 0⟩).bind Rtcp.ReceptionReport.from_raw =
      Except.ok ⟨0, 0, 65536, 0, 0, 0, 0⟩ :=
  ⟨rfl, rfl⟩

/-- C7. Refuted: the emission guard of `ReceptionReport::to_raw` compares
`total_lost` against `1 << 25`, not `1 << 24`. With `total_lost = 2^24`
emission succeeds (and silently truncates the value to all-zero bytes);
only from `2^25` on does it return an error. -/
theorem reception_report_guard_allows_2_pow_24 :
    Rtcp.ReceptionReport.to_raw ⟨0, 0, 16777216, 0, 0, 0, 0⟩ =
      Except.ok (List.replicate 24 0) ∧
    Rtcp.ReceptionReport.to_raw ⟨0, 0, 33554432, 0, 0, 0, 0⟩ = rustErr :=
  ⟨rfl, rfl⟩
